import Mathlib

/-!
Verification of the Observable State Container (`src/src/main.js`,
class `ObservableService`).

The JavaScript class wraps a plain record behind a `Proxy` whose `set` and
`deleteProperty` traps route through `amendState` / `pruneState`, capture a
pre-batch baseline on the first real change of a batch, coalesce any number
of changes into one microtask-scheduled flush (`addToQueue`), and deliver a
pair of frozen shallow copies to every subscriber (`emitQueued`).

The embedding below is a direct shallow translation:
  * `Value` models JavaScript primitive values with `Object.is` sameness as
    decidable equality (`nan = nan` is true, `num 0 ≠ negZero`).
  * `RecordMap` models a plain object's own enumerable properties as an
    insertion-ordered association list (update in place, append new keys),
    matching JS property order and spread-copy semantics.
  * `Svc` carries the private fields of `ObservableService`
    (`#target`, `#queuedUpdateNotice`, `#preBatchStaleState`,
    `#subscribers`) plus `frozenTarget` (whether the backing store rejects
    writes, i.e. the caller passed a frozen `source`) and `microtasks`
    (the number of pending `Promise.resolve().then` flush tasks).
  * Subscriber callbacks are modelled by identifier with a behaviour map
    (`SubBehavior`): a callback may do nothing, mutate the container
    through the proxy, or throw.
  * `runFlush` is the scheduled microtask body of `addToQueue`: it runs
    `emitQueued` and, only when no subscriber threw, clears the flag and
    resets the baseline (a throw propagates out of the `.then` callback
    before those two statements run).
-/

namespace ObservableSpec

/-- JavaScript primitive values, with constructors chosen so that
structural equality coincides with `Object.is`: `nan` is equal to itself,
and `num 0` (that is, `+0`) is distinct from `negZero`. -/
inductive Value where
  | num (n : Int)
  | negZero
  | nan
  | str (s : String)
  | bool (b : Bool)
  | undefined
  | null
deriving DecidableEq, Repr

/-- A plain object's own enumerable string-keyed properties, in insertion
order, as JavaScript maintains it. -/
abbrev RecordMap := List (String × Value)

/-- Own-property lookup: first (and, for well-formed objects, only) entry
with the given key. -/
def getR : RecordMap → String → Option Value
  | [], _ => none
  | (k, v) :: rest, key => if k = key then some v else getR rest key

/-- `Object.hasOwn(target, key)`. -/
def hasOwn (m : RecordMap) (k : String) : Bool := (getR m k).isSome

/-- `Reflect.get(target, key)`: `undefined` for an absent key. -/
def reflectGet (m : RecordMap) (k : String) : Value :=
  (getR m k).getD .undefined

/-- Property write on the record data: update an existing key in place
(keeping its position, as JS does), append a new key at the end. -/
def setR : RecordMap → String → Value → RecordMap
  | [], key, v => [(key, v)]
  | (k, w) :: rest, key, v =>
    if k = key then (k, v) :: rest else (k, w) :: setR rest key v

/-- Property deletion on the record data (JS objects have unique keys, so
filtering the key out is the deletion of that own property). -/
def delR (m : RecordMap) (key : String) : RecordMap :=
  m.filter (fun p => p.1 ≠ key)

/-- The private instance state of `ObservableService`.  `frozenTarget`
records whether the backing `source` object rejects writes and deletes
(e.g. it was frozen by the caller); `microtasks` counts the pending
`Promise.resolve().then(...)` flush tasks scheduled by `addToQueue`. -/
structure Svc where
  target : RecordMap
  frozenTarget : Bool
  queuedUpdateNotice : Bool
  preBatchStaleState : RecordMap
  subscribers : List Nat
  microtasks : Nat
deriving DecidableEq, Repr

/-- `Reflect.set(this.#target, key, change)`: on a frozen target the write
is refused and `false` is returned; otherwise the property is written and
`true` is returned.  (Within `amendState` this is only reached with a value
that differs from the current one, for which a frozen target always
answers `false`.) -/
def reflectSet (s : Svc) (k : String) (v : Value) : Svc × Bool :=
  if s.frozenTarget then (s, false)
  else ({ s with target := setR s.target k v }, true)

/-- `Reflect.deleteProperty(this.#target, key)`: on a frozen target the
deletion of an existing own property is refused with `false`.  (Within
`pruneState` this is only reached when the key is present.) -/
def reflectDeleteProp (s : Svc) (k : String) : Svc × Bool :=
  if s.frozenTarget then (s, false)
  else ({ s with target := delR s.target k }, true)

/-- `amendState(key, change)` from `src/src/main.js` lines 61-67:
if the candidate is `Object.is`-same as the current value, succeed as a
no-op; otherwise capture the pre-batch baseline (only when no batch is
pending) and commit via `Reflect.set`. -/
def amendState (s : Svc) (k : String) (change : Value) : Svc × Bool :=
  if reflectGet s.target k = change then (s, true)
  else
    let s1 := if s.queuedUpdateNotice then s
              else { s with preBatchStaleState := s.target }
    reflectSet s1 k change

/-- `pruneState(key)` from `src/src/main.js` lines 69-75: absent key is a
no-op success; otherwise capture the baseline (only when no batch is
pending) and delete via `Reflect.deleteProperty`. -/
def pruneState (s : Svc) (k : String) : Svc × Bool :=
  if hasOwn s.target k = false then (s, true)
  else
    let s1 := if s.queuedUpdateNotice then s
              else { s with preBatchStaleState := s.target }
    reflectDeleteProp s1 k

/-- `addToQueue(update)` from `src/src/main.js` lines 77-85: idempotent
flush request — if a flush is already queued, return; otherwise set the
flag and schedule one microtask.  (The `update` argument is the live
`this.#target` reference, so the task needs no captured data: the flush
reads the then-current record.) -/
def addToQueue (s : Svc) : Svc :=
  if s.queuedUpdateNotice then s
  else { s with queuedUpdateNotice := true, microtasks := s.microtasks + 1 }

/-- The proxy `set` trap (`src/src/main.js` lines 29-34): remember whether
the write is a real change, run `amendState`, and queue a flush only when
it was a change and the commit reported success. -/
def agentSet (s : Svc) (k : String) (v : Value) : Svc × Bool :=
  let r := amendState s k v
  if reflectGet s.target k ≠ v ∧ r.2 = true then (addToQueue r.1, r.2)
  else (r.1, r.2)

/-- The proxy `deleteProperty` trap (`src/src/main.js` lines 35-40):
remember whether the key existed, run `pruneState`, and queue a flush only
when it existed and the deletion reported success. -/
def agentDelete (s : Svc) (k : String) : Svc × Bool :=
  let r := pruneState s k
  if hasOwn s.target k = true ∧ r.2 = true then (addToQueue r.1, r.2)
  else (r.1, r.2)

/-- `subscribe(subscriber)`: JS `Set.add` — insertion-ordered, duplicate
insertion is a no-op. -/
def subscribe (s : Svc) (i : Nat) : Svc :=
  if i ∈ s.subscribers then s
  else { s with subscribers := s.subscribers ++ [i] }

/-- `unsubscribe(subscriber)`: JS `Set.delete`. -/
def unsubscribe (s : Svc) (i : Nat) : Svc :=
  { s with subscribers := s.subscribers.filter (fun j => j ≠ i) }

/-- `unsubscribeAll()`: JS `Set.clear`. -/
def unsubscribeAll (s : Svc) : Svc :=
  { s with subscribers := [] }

/-- What a subscriber callback does when invoked: return normally, mutate
the container through the live proxy view, or throw. -/
inductive SubBehavior where
  | pure
  | mutate (k : String) (v : Value)
  | throws
deriving DecidableEq, Repr

/-- One delivered notification: which subscriber was invoked, with which
(fresh, stale) snapshot pair. -/
structure Note where
  sub : Nat
  fresh : RecordMap
  stale : RecordMap
deriving DecidableEq, Repr

/-- Invoke one subscriber callback; the boolean reports whether it threw. -/
def runSubscriber (beh : Nat → SubBehavior) (s : Svc) (i : Nat) : Svc × Bool :=
  match beh i with
  | .pure => (s, false)
  | .mutate k v => ((agentSet s k v).1, false)
  | .throws => (s, true)

/-- The `for (const subscriber of this.#subscribers)` loop of
`emitQueued`: each subscriber is invoked with the already-computed frozen
snapshot pair; a throw aborts the loop (the thrower was invoked, later
subscribers are not).  Returns the post-loop service state, the
notifications actually delivered, and whether a throw escaped. -/
def emitLoop (beh : Nat → SubBehavior) (fresh stale : RecordMap) :
    Svc → List Nat → Svc × List Note × Bool
  | s, [] => (s, [], false)
  | s, i :: rest =>
    let r := runSubscriber beh s i
    if r.2 = true then (r.1, [⟨i, fresh, stale⟩], true)
    else
      let t := emitLoop beh fresh stale r.1 rest
      (t.1, ⟨i, fresh, stale⟩ :: t.2.1, t.2.2)

/-- `emitQueued(fresh, stale)` from `src/src/main.js` lines 87-93: the
frozen snapshots are shallow copies of the live record and of the baseline
taken at flush time (value copies here; the allocation/freeze aspect is
modelled separately on the heap model below), then every subscriber is
invoked with the pair. -/
def emitQueued (beh : Nat → SubBehavior) (s : Svc) : Svc × List Note × Bool :=
  emitLoop beh s.target s.preBatchStaleState s s.subscribers

/-- The microtask body scheduled by `addToQueue`: run `emitQueued`, then —
only if delivery completed without a throw — clear `#queuedUpdateNotice`
and reset `#preBatchStaleState`, in that order.  A throw from a subscriber
escapes the `.then` callback before those two assignments, leaving the
flag set and the baseline in place.  When no task is pending this is a
no-op tick. -/
def runFlush (beh : Nat → SubBehavior) (s : Svc) : Svc × List Note :=
  if s.microtasks = 0 then (s, [])
  else
    let s0 := { s with microtasks := s.microtasks - 1 }
    let e := emitQueued beh s0
    if e.2.2 = true then (e.1, e.2.1)
    else ({ e.1 with queuedUpdateNotice := false, preBatchStaleState := [] }, e.2.1)

/-- `new ObservableService(source)`: the backing store is the caller's
object (so its frozenness is the caller's choice), no batch pending, empty
baseline, no subscribers. -/
def mkService (source : RecordMap) (sourceFrozen : Bool) : Svc :=
  { target := source, frozenTarget := sourceFrozen, queuedUpdateNotice := false,
    preBatchStaleState := [], subscribers := [], microtasks := 0 }

/-- A mutation issued through the live state view within a synchronous
turn. -/
inductive MutOp where
  | assign (k : String) (v : Value)
  | remove (k : String)
deriving DecidableEq, Repr

/-- Perform one mutation through the proxy traps. -/
def applyOp (s : Svc) : MutOp → Svc
  | .assign k v => (agentSet s k v).1
  | .remove k => (agentDelete s k).1

/-- Perform a synchronous sequence of mutations through the proxy. -/
def applyOps (s : Svc) (ops : List MutOp) : Svc := ops.foldl applyOp s

/-- Whether a mutation is change-worthy in the given state: an assignment
whose value is not `Object.is`-same as the current one, or a deletion of a
present key. -/
def changeWorthy (s : Svc) : MutOp → Bool
  | .assign k v => !(reflectGet s.target k == v)
  | .remove k => hasOwn s.target k

/-- Every mutation of the sequence is change-worthy at the moment it
runs. -/
def changeWorthySeq : Svc → List MutOp → Bool
  | _, [] => true
  | s, op :: rest => changeWorthy s op && changeWorthySeq (applyOp s op) rest

/-- The behaviour map under which every subscriber callback returns
normally without touching the container. -/
def pureBeh : Nat → SubBehavior := fun _ => .pure

/-! Basic record-map lemmas. -/

theorem getR_setR_self (m : RecordMap) (k : String) (v : Value) :
    getR (setR m k v) k = some v := by
  induction m with
  | nil => simp [setR, getR]
  | cons p rest ih =>
    by_cases h : p.1 = k
    · simp [setR, getR, h]
    · simp [setR, getR, h, ih]

theorem reflectGet_setR_self (m : RecordMap) (k : String) (v : Value) :
    reflectGet (setR m k v) k = v := by
  simp [reflectGet, getR_setR_self]

theorem hasOwn_delR_self (m : RecordMap) (k : String) :
    hasOwn (delR m k) k = false := by
  induction m with
  | nil => simp [delR, hasOwn, getR]
  | cons p rest ih =>
    by_cases h : p.1 = k
    · simpa [delR, h] using ih
    · simpa [delR, hasOwn, getR, h] using ih

/-! Lemmas about single proxy-trap operations. -/

/-- A same-value assignment through the trap is a pure no-op success. -/
theorem agentSet_noop (s : Svc) (k : String) (v : Value)
    (h : reflectGet s.target k = v) :
    agentSet s k v = (s, true) := by
  simp [agentSet, amendState, h]

/-- A changed assignment from an idle, unfrozen container: baseline is
captured from the pre-change record, the value is committed, the flag is
set and one flush task is scheduled. -/
theorem agentSet_changed (s : Svc) (k : String) (v : Value)
    (hchg : reflectGet s.target k ≠ v)
    (hq : s.queuedUpdateNotice = false) (hf : s.frozenTarget = false) :
    agentSet s k v =
      ({ s with preBatchStaleState := s.target, target := setR s.target k v,
                queuedUpdateNotice := true, microtasks := s.microtasks + 1 }, true) := by
  simp [agentSet, amendState, reflectSet, addToQueue, hchg, hq, hf]

/-- A changed assignment while a batch is pending: the value is committed
but the baseline, flag and task queue are untouched. -/
theorem agentSet_changed_batching (s : Svc) (k : String) (v : Value)
    (hchg : reflectGet s.target k ≠ v)
    (hq : s.queuedUpdateNotice = true) (hf : s.frozenTarget = false) :
    agentSet s k v = ({ s with target := setR s.target k v }, true) := by
  simp [agentSet, amendState, reflectSet, addToQueue, hchg, hq, hf]

/-- Deleting an absent key through the trap is a pure no-op success. -/
theorem agentDelete_absent (s : Svc) (k : String)
    (h : hasOwn s.target k = false) :
    agentDelete s k = (s, true) := by
  simp [agentDelete, pruneState, h]

/-- Deleting a present key from an idle, unfrozen container: baseline is
captured, the key is removed, the flag is set and one flush task is
scheduled. -/
theorem agentDelete_present (s : Svc) (k : String)
    (h : hasOwn s.target k = true)
    (hq : s.queuedUpdateNotice = false) (hf : s.frozenTarget = false) :
    agentDelete s k =
      ({ s with preBatchStaleState := s.target, target := delR s.target k,
                queuedUpdateNotice := true, microtasks := s.microtasks + 1 }, true) := by
  simp [agentDelete, pruneState, reflectDeleteProp, addToQueue, h, hq, hf]

/-- While a batch is pending, any trap operation only rewrites the record:
flag, baseline, task count, subscriber set and frozenness are untouched. -/
theorem agentSet_batching_frame (s : Svc) (k : String) (v : Value)
    (hq : s.queuedUpdateNotice = true) :
    ∃ t : RecordMap, (agentSet s k v).1 = { s with target := t } := by
  by_cases hc : reflectGet s.target k = v
  · exact ⟨s.target, by simp [agentSet_noop s k v hc]⟩
  · by_cases hf : s.frozenTarget
    · exact ⟨s.target, by
        have h2 : agentSet s k v = (s, false) := by
          simp [agentSet, amendState, reflectSet, hc, hq, hf]
        rw [h2]⟩
    · exact ⟨setR s.target k v, by
        simp [agentSet, amendState, reflectSet, addToQueue, hc, hq, hf]⟩

/-- Pending-batch frame lemma for the deletion trap. -/
theorem agentDelete_batching_frame (s : Svc) (k : String)
    (hq : s.queuedUpdateNotice = true) :
    ∃ t : RecordMap, (agentDelete s k).1 = { s with target := t } := by
  by_cases hc : hasOwn s.target k = true
  · by_cases hf : s.frozenTarget
    · exact ⟨s.target, by
        have h2 : agentDelete s k = (s, false) := by
          simp [agentDelete, pruneState, reflectDeleteProp, hc, hq, hf]
        rw [h2]⟩
    · exact ⟨delR s.target k, by
        simp [agentDelete, pruneState, reflectDeleteProp, addToQueue, hc, hq, hf]⟩
  · exact ⟨s.target, by
      simp [agentDelete_absent s k (by simpa using hc)]⟩

/-- Pending-batch frame lemma for a single mutation. -/
theorem applyOp_batching_frame (s : Svc) (op : MutOp)
    (hq : s.queuedUpdateNotice = true) :
    ∃ t : RecordMap, applyOp s op = { s with target := t } := by
  cases op with
  | assign k v => exact agentSet_batching_frame s k v hq
  | remove k => exact agentDelete_batching_frame s k hq

/-- Pending-batch frame lemma for a whole synchronous burst. -/
theorem applyOps_batching_frame (ops : List MutOp) (s : Svc)
    (hq : s.queuedUpdateNotice = true) :
    ∃ t : RecordMap, applyOps s ops = { s with target := t } := by
  induction ops generalizing s with
  | nil => exact ⟨s.target, rfl⟩
  | cons op rest ih =>
    obtain ⟨t, ht⟩ := applyOp_batching_frame s op hq
    obtain ⟨t2, ht2⟩ := ih { s with target := t } hq
    exact ⟨t2, by simp [applyOps] at ht2 ⊢; rw [ht]; exact ht2⟩

/-- The first change-worthy mutation from an idle, unfrozen container
captures the baseline, sets the flag and schedules exactly one flush. -/
theorem applyOp_first (s : Svc) (op : MutOp)
    (hq : s.queuedUpdateNotice = false) (hf : s.frozenTarget = false)
    (hcw : changeWorthy s op = true) :
    ∃ t : RecordMap,
      applyOp s op = { s with preBatchStaleState := s.target, target := t,
                              queuedUpdateNotice := true,
                              microtasks := s.microtasks + 1 } := by
  cases op with
  | assign k v =>
    have hchg : reflectGet s.target k ≠ v := by
      simpa [changeWorthy] using hcw
    exact ⟨setR s.target k v, by simp [applyOp, agentSet_changed s k v hchg hq hf]⟩
  | remove k =>
    have h : hasOwn s.target k = true := by simpa [changeWorthy] using hcw
    exact ⟨delR s.target k, by simp [applyOp, agentDelete_present s k h hq hf]⟩

/-! Flush lemmas. -/

/-- With purely observing subscribers the delivery loop changes no state,
throws nowhere, and hands every subscriber the same snapshot pair. -/
theorem emitLoop_pureBeh (fresh stale : RecordMap) (s : Svc) (l : List Nat) :
    emitLoop pureBeh fresh stale s l =
      (s, l.map (fun i => (⟨i, fresh, stale⟩ : Note)), false) := by
  induction l generalizing s with
  | nil => simp [emitLoop]
  | cons i rest ih => simp [emitLoop, runSubscriber, pureBeh, ih]

/-- With one pending task and purely observing subscribers, the flush
delivers the (current record, baseline) pair to every subscriber and then
clears the flag and resets the baseline. -/
theorem runFlush_pureBeh (s : Svc) (hm : s.microtasks = 1) :
    runFlush pureBeh s =
      ({ s with microtasks := 0, queuedUpdateNotice := false,
                preBatchStaleState := [] },
       s.subscribers.map (fun i => ⟨i, s.target, s.preBatchStaleState⟩)) := by
  simp [runFlush, hm, emitQueued, emitLoop_pureBeh]

/-- A tick with no pending flush task delivers nothing. -/
theorem runFlush_idle (beh : Nat → SubBehavior) (s : Svc)
    (hm : s.microtasks = 0) :
    runFlush beh s = (s, []) := by
  simp [runFlush, hm]

/-- Delivery over a pure prefix followed by a throwing subscriber: the
prefix and the thrower are invoked, the loop then aborts with the throw,
delivering nothing to the remaining subscribers and leaving the service
state as it was. -/
theorem emitLoop_pure_then_throw (beh : Nat → SubBehavior)
    (fresh stale : RecordMap) (s : Svc) (pre post : List Nat) (t : Nat)
    (hpre : ∀ i ∈ pre, beh i = .pure) (ht : beh t = .throws) :
    emitLoop beh fresh stale s (pre ++ t :: post) =
      (s, (pre ++ [t]).map (fun i => (⟨i, fresh, stale⟩ : Note)), true) := by
  induction pre generalizing s with
  | nil => simp [emitLoop, runSubscriber, ht]
  | cons i rest ih =>
    have hi : beh i = .pure := hpre i (by simp)
    have hrest : ∀ j ∈ rest, beh j = .pure := fun j hj => hpre j (by simp [hj])
    simp [emitLoop, runSubscriber, hi, ih s hrest]

/-! Claim theorems. -/

/-- Claim C4: for every key k and value v, assigning v to k when the
current value of k is already the same as v under same-value semantics
(`Object.is`: NaN equals NaN, +0 and -0 differ — encoded in `Value`'s
equality) succeeds as a no-op: it returns success, schedules no flush,
leaves the baseline (and all other state) unchanged, and causes no
notification. -/
theorem C4_noop_assign (s : Svc) (k : String) (v : Value)
    (h : reflectGet s.target k = v) :
    agentSet s k v = (s, true) ∧ amendState s k v = (s, true) ∧
    (s.microtasks = 0 → runFlush pureBeh s = (s, [])) :=
  ⟨agentSet_noop s k v h, by simp [amendState, h],
   fun hm => runFlush_idle pureBeh s hm⟩

/-- Concrete container whose key "a" holds NaN, for the C4 witness. -/
def svcC4 : Svc :=
  { target := [("a", .nan)], frozenTarget := false, queuedUpdateNotice := false,
    preBatchStaleState := [], subscribers := [0], microtasks := 0 }

/-- Witness for C4 at the NaN self-assignment. -/
theorem C4_witness :
    reflectGet svcC4.target "a" = .nan ∧
    (agentSet svcC4 "a" .nan = (svcC4, true) ∧
     amendState svcC4 "a" .nan = (svcC4, true) ∧
     (svcC4.microtasks = 0 → runFlush pureBeh svcC4 = (svcC4, []))) :=
  ⟨by decide, C4_noop_assign svcC4 "a" .nan (by decide)⟩

/-- Claim C6: removing an absent key is a no-op that returns success and
causes no notification; removing a present key (no batch pending) captures
the baseline, deletes the key, and leads to exactly one notification whose
fresh snapshot lacks the key and whose stale snapshot is the pre-deletion
record. -/
theorem C6_remove (s : Svc) (k : String) :
    (hasOwn s.target k = false → agentDelete s k = (s, true)) ∧
    (hasOwn s.target k = true → s.queuedUpdateNotice = false →
     s.microtasks = 0 → s.frozenTarget = false →
      agentDelete s k =
        ({ s with preBatchStaleState := s.target, target := delR s.target k,
                  queuedUpdateNotice := true, microtasks := s.microtasks + 1 }, true) ∧
      hasOwn (agentDelete s k).1.target k = false ∧
      runFlush pureBeh (agentDelete s k).1 =
        ({ (agentDelete s k).1 with microtasks := 0, queuedUpdateNotice := false,
                                    preBatchStaleState := [] },
         s.subscribers.map (fun i => ⟨i, delR s.target k, s.target⟩)) ∧
      runFlush pureBeh (runFlush pureBeh (agentDelete s k).1).1 =
        ((runFlush pureBeh (agentDelete s k).1).1, [])) := by
  refine ⟨agentDelete_absent s k, ?_⟩
  intro h hq hm hf
  have hd := agentDelete_present s k h hq hf
  have h1 : (agentDelete s k).1.microtasks = 1 := by rw [hd]; simp [hm]
  refine ⟨hd, ?_, ?_, ?_⟩
  · rw [hd]; exact hasOwn_delR_self s.target k
  · rw [runFlush_pureBeh _ h1, hd]
  · rw [runFlush_pureBeh _ h1]
    exact runFlush_idle pureBeh _ rfl

/-- Concrete container `{a: 1, b: 2}` with one subscriber, for the C6
witness. -/
def svcC6 : Svc :=
  { target := [("a", .num 1), ("b", .num 2)], frozenTarget := false,
    queuedUpdateNotice := false, preBatchStaleState := [], subscribers := [0],
    microtasks := 0 }

/-- Witness for C6: removing the absent key "c" is a silent no-op, and
removing the present key "a" yields one notification with
fresh = {b: 2}, stale = {a: 1, b: 2}. -/
theorem C6_witness :
    (hasOwn svcC6.target "c" = false ∧ agentDelete svcC6 "c" = (svcC6, true)) ∧
    (agentDelete svcC6 "a" =
       ({ svcC6 with preBatchStaleState := svcC6.target,
                     target := delR svcC6.target "a",
                     queuedUpdateNotice := true,
                     microtasks := svcC6.microtasks + 1 }, true) ∧
     hasOwn (agentDelete svcC6 "a").1.target "a" = false ∧
     runFlush pureBeh (agentDelete svcC6 "a").1 =
       ({ (agentDelete svcC6 "a").1 with microtasks := 0,
                                         queuedUpdateNotice := false,
                                         preBatchStaleState := [] },
        svcC6.subscribers.map
          (fun i => ⟨i, delR svcC6.target "a", svcC6.target⟩)) ∧
     runFlush pureBeh (runFlush pureBeh (agentDelete svcC6 "a").1).1 =
       ((runFlush pureBeh (agentDelete svcC6 "a").1).1, [])) :=
  ⟨⟨by decide, (C6_remove svcC6 "c").1 (by decide)⟩,
   (C6_remove svcC6 "a").2 (by decide) rfl rfl rfl⟩

/-- Container `{a: 1}` for the C7 counterexample. -/
def svcC7 : Svc := mkService [("a", .num 1)] false

/-- Claim C7 counterexample: calling the exposed lower-level escape hatch
`amendState` directly with a changed value returns success, captures the
baseline and commits the value, but requests no flush — the batch flag
stays clear, no microtask is scheduled, and a tick delivers nothing, so a
successful changed assign through `amendState` does not result in a
scheduled notification as the claim states. -/
theorem C7_counterexample :
    (amendState svcC7 "a" (.num 2)).2 = true ∧
    (amendState svcC7 "a" (.num 2)).1.target = [("a", .num 2)] ∧
    (amendState svcC7 "a" (.num 2)).1.preBatchStaleState = [("a", .num 1)] ∧
    (amendState svcC7 "a" (.num 2)).1.queuedUpdateNotice = false ∧
    (amendState svcC7 "a" (.num 2)).1.microtasks = 0 ∧
    runFlush pureBeh (amendState svcC7 "a" (.num 2)).1 =
      ((amendState svcC7 "a" (.num 2)).1, []) := by decide

/-- Claim C7 as amended: for a changed assign through the live state view
(the proxy `set` trap), with no batch pending and an unfrozen store, the
baseline is captured as a copy of the pre-change record, the value is
committed, and a flush is requested; the lower-level `amendState` escape
hatch performs the same baseline capture and commit but does not itself
request the flush — that is done only by the proxy trap. -/
theorem C7_proxy_assign_schedules (s : Svc) (k : String) (v : Value)
    (hchg : reflectGet s.target k ≠ v)
    (hq : s.queuedUpdateNotice = false) (hf : s.frozenTarget = false) :
    amendState s k v =
      ({ s with preBatchStaleState := s.target, target := setR s.target k v }, true) ∧
    agentSet s k v =
      ({ s with preBatchStaleState := s.target, target := setR s.target k v,
                queuedUpdateNotice := true, microtasks := s.microtasks + 1 }, true) :=
  ⟨by simp [amendState, reflectSet, hchg, hq, hf],
   agentSet_changed s k v hchg hq hf⟩

/-- Witness for the amended C7 at `{a: 1}`, assigning 2 to "a". -/
theorem C7_witness :
    reflectGet svcC7.target "a" ≠ .num 2 ∧
    (amendState svcC7 "a" (.num 2) =
       ({ svcC7 with preBatchStaleState := svcC7.target,
                     target := setR svcC7.target "a" (.num 2) }, true) ∧
     agentSet svcC7 "a" (.num 2) =
       ({ svcC7 with preBatchStaleState := svcC7.target,
                     target := setR svcC7.target "a" (.num 2),
                     queuedUpdateNotice := true,
                     microtasks := svcC7.microtasks + 1 }, true)) :=
  ⟨by decide, C7_proxy_assign_schedules svcC7 "a" (.num 2) (by decide) rfl rfl⟩

/-- Claim C9: when the backing store rejects the commit (frozen target),
an assign of a differing value and a remove of a present key both signal
failure as a boolean `false` return — the operations are total functions
in this embedding, mirroring that the source contains no `throw` — leave
the record unchanged, and schedule no flush on their account (flag and
pending-task count unchanged). -/
theorem C9_rejected_commit (s : Svc) (k : String) (v : Value)
    (hf : s.frozenTarget = true) :
    (reflectGet s.target k ≠ v →
      (agentSet s k v).2 = false ∧ (agentSet s k v).1.target = s.target ∧
      (agentSet s k v).1.microtasks = s.microtasks ∧
      (agentSet s k v).1.queuedUpdateNotice = s.queuedUpdateNotice) ∧
    (hasOwn s.target k = true →
      (agentDelete s k).2 = false ∧ (agentDelete s k).1.target = s.target ∧
      (agentDelete s k).1.microtasks = s.microtasks ∧
      (agentDelete s k).1.queuedUpdateNotice = s.queuedUpdateNotice) := by
  constructor
  · intro hchg
    by_cases hq : s.queuedUpdateNotice <;>
      simp [agentSet, amendState, reflectSet, hchg, hq, hf]
  · intro hown
    by_cases hq : s.queuedUpdateNotice <;>
      simp [agentDelete, pruneState, reflectDeleteProp, hown, hq, hf]

/-- Frozen-source container `{a: 1}` for the C9 witness. -/
def svcC9 : Svc := mkService [("a", .num 1)] true

/-- Witness for C9: on the frozen store, assigning 2 to "a" and removing
"a" both fail with `false` and schedule nothing. -/
theorem C9_witness :
    reflectGet svcC9.target "a" ≠ .num 2 ∧ hasOwn svcC9.target "a" = true ∧
    ((agentSet svcC9 "a" (.num 2)).2 = false ∧
     (agentSet svcC9 "a" (.num 2)).1.target = svcC9.target ∧
     (agentSet svcC9 "a" (.num 2)).1.microtasks = svcC9.microtasks ∧
     (agentSet svcC9 "a" (.num 2)).1.queuedUpdateNotice = svcC9.queuedUpdateNotice) ∧
    ((agentDelete svcC9 "a").2 = false ∧
     (agentDelete svcC9 "a").1.target = svcC9.target ∧
     (agentDelete svcC9 "a").1.microtasks = svcC9.microtasks ∧
     (agentDelete svcC9 "a").1.queuedUpdateNotice = svcC9.queuedUpdateNotice) :=
  ⟨by decide, by decide,
   (C9_rejected_commit svcC9 "a" (.num 2) rfl).1 (by decide),
   (C9_rejected_commit svcC9 "a" (.num 2) rfl).2 (by decide)⟩

/-- Claim C10: `subscribe`, `unsubscribe` and `unsubscribeAll` modify only
the subscriber set — the tracked record, baseline, batch flag, frozenness
and pending-task count are unchanged, so none of them schedules a flush or
triggers a notification by itself. -/
theorem C10_registry_frame (s : Svc) (i : Nat) :
    ((subscribe s i).target = s.target ∧
     (subscribe s i).preBatchStaleState = s.preBatchStaleState ∧
     (subscribe s i).queuedUpdateNotice = s.queuedUpdateNotice ∧
     (subscribe s i).microtasks = s.microtasks ∧
     (subscribe s i).frozenTarget = s.frozenTarget) ∧
    ((unsubscribe s i).target = s.target ∧
     (unsubscribe s i).preBatchStaleState = s.preBatchStaleState ∧
     (unsubscribe s i).queuedUpdateNotice = s.queuedUpdateNotice ∧
     (unsubscribe s i).microtasks = s.microtasks ∧
     (unsubscribe s i).frozenTarget = s.frozenTarget) ∧
    ((unsubscribeAll s).target = s.target ∧
     (unsubscribeAll s).preBatchStaleState = s.preBatchStaleState ∧
     (unsubscribeAll s).queuedUpdateNotice = s.queuedUpdateNotice ∧
     (unsubscribeAll s).microtasks = s.microtasks ∧
     (unsubscribeAll s).frozenTarget = s.frozenTarget) := by
  refine ⟨?_, by simp [unsubscribe], by simp [unsubscribeAll]⟩
  by_cases h : i ∈ s.subscribers <;> simp [subscribe, h]

/-- Claim C1: a synchronous burst of N ≥ 1 change-worthy mutations from an
idle container schedules exactly one flush (later changes find the flag
set and schedule nothing more), and that single flush hands every
subscriber fresh = the record after all N changes and stale = the record
as it was before the first change; a further tick delivers nothing. -/
theorem C1_single_notification_per_batch (s : Svc) (ops : List MutOp)
    (hne : ops ≠ []) (hq : s.queuedUpdateNotice = false)
    (hm : s.microtasks = 0) (hf : s.frozenTarget = false)
    (hcw : changeWorthySeq s ops = true) :
    (applyOps s ops).microtasks = 1 ∧
    (applyOps s ops).queuedUpdateNotice = true ∧
    (applyOps s ops).preBatchStaleState = s.target ∧
    runFlush pureBeh (applyOps s ops) =
      ({ applyOps s ops with microtasks := 0, queuedUpdateNotice := false,
                             preBatchStaleState := [] },
       s.subscribers.map (fun i => ⟨i, (applyOps s ops).target, s.target⟩)) ∧
    runFlush pureBeh (runFlush pureBeh (applyOps s ops)).1 =
      ((runFlush pureBeh (applyOps s ops)).1, []) := by
  obtain ⟨op, rest, rfl⟩ := List.exists_cons_of_ne_nil hne
  rw [changeWorthySeq, Bool.and_eq_true] at hcw
  obtain ⟨hcw1, hcwr⟩ := hcw
  obtain ⟨t, h1⟩ := applyOp_first s op hq hf hcw1
  obtain ⟨t2, h2⟩ := applyOps_batching_frame rest (applyOp s op) (by rw [h1])
  have hall : applyOps s (op :: rest) =
      { s with preBatchStaleState := s.target, target := t2,
               queuedUpdateNotice := true, microtasks := s.microtasks + 1 } := by
    show applyOps (applyOp s op) rest = _
    rw [h2, h1]
  rw [hall]
  have hm1 : ({ s with preBatchStaleState := s.target, target := t2,
                       queuedUpdateNotice := true,
                       microtasks := s.microtasks + 1 } : Svc).microtasks = 1 := by
    simp [hm]
  refine ⟨hm1, rfl, rfl, ?_, ?_⟩
  · rw [runFlush_pureBeh _ hm1]
  · rw [runFlush_pureBeh _ hm1]
    exact runFlush_idle pureBeh _ rfl

/-- Container `{a: 1, b: 2}` with one subscriber, for the C1 witness. -/
def svcC1 : Svc :=
  { target := [("a", .num 1), ("b", .num 2)], frozenTarget := false,
    queuedUpdateNotice := false, preBatchStaleState := [], subscribers := [0],
    microtasks := 0 }

/-- The C1 witness burst: assign a := 3 then b := 4 in one turn. -/
def opsC1 : List MutOp := [.assign "a" (.num 3), .assign "b" (.num 4)]

/-- Witness for C1: the spec's concrete scenario — one notification with
fresh = {a: 3, b: 4} and stale = {a: 1, b: 2}. -/
theorem C1_witness :
    opsC1 ≠ [] ∧ changeWorthySeq svcC1 opsC1 = true ∧
    ((applyOps svcC1 opsC1).microtasks = 1 ∧
     (applyOps svcC1 opsC1).queuedUpdateNotice = true ∧
     (applyOps svcC1 opsC1).preBatchStaleState = svcC1.target ∧
     runFlush pureBeh (applyOps svcC1 opsC1) =
       ({ applyOps svcC1 opsC1 with microtasks := 0, queuedUpdateNotice := false,
                                    preBatchStaleState := [] },
        svcC1.subscribers.map
          (fun i => ⟨i, (applyOps svcC1 opsC1).target, svcC1.target⟩)) ∧
     runFlush pureBeh (runFlush pureBeh (applyOps svcC1 opsC1)).1 =
       ((runFlush pureBeh (applyOps svcC1 opsC1)).1, [])) :=
  ⟨by decide, by decide,
   C1_single_notification_per_batch svcC1 opsC1 (by decide) rfl rfl rfl (by decide)⟩

/-- Claim C5: the decision to notify is per-call, not final-state-versus-
baseline: a write that changes a key followed in the same turn by a write
reverting it to its original value consists of two individually
change-worthy writes, yields exactly one notification, and in that
notification the fresh and stale snapshots agree on the reverted key. -/
theorem C5_revert_still_notifies (s : Svc) (k : String) (v : Value)
    (hq : s.queuedUpdateNotice = false) (hm : s.microtasks = 0)
    (hf : s.frozenTarget = false) (hchg : reflectGet s.target k ≠ v) :
    changeWorthySeq s [.assign k v, .assign k (reflectGet s.target k)] = true ∧
    (applyOps s [.assign k v, .assign k (reflectGet s.target k)]).microtasks = 1 ∧
    reflectGet (applyOps s [.assign k v, .assign k (reflectGet s.target k)]).target k
      = reflectGet s.target k ∧
    runFlush pureBeh (applyOps s [.assign k v, .assign k (reflectGet s.target k)]) =
      ({ applyOps s [.assign k v, .assign k (reflectGet s.target k)] with
           microtasks := 0, queuedUpdateNotice := false, preBatchStaleState := [] },
       s.subscribers.map
         (fun i =>
           ⟨i, (applyOps s [.assign k v, .assign k (reflectGet s.target k)]).target,
            s.target⟩)) := by
  have h1 := agentSet_changed s k v hchg hq hf
  have hchg2 : reflectGet
      ({ s with preBatchStaleState := s.target, target := setR s.target k v,
                queuedUpdateNotice := true,
                microtasks := s.microtasks + 1 } : Svc).target k
      ≠ reflectGet s.target k := by
    show reflectGet (setR s.target k v) k ≠ reflectGet s.target k
    rw [reflectGet_setR_self]
    exact fun hvv => hchg hvv.symm
  have h2 := agentSet_changed_batching
      ({ s with preBatchStaleState := s.target, target := setR s.target k v,
                queuedUpdateNotice := true, microtasks := s.microtasks + 1 } : Svc)
      k (reflectGet s.target k) hchg2 rfl hf
  have hall : applyOps s [.assign k v, .assign k (reflectGet s.target k)] =
      { s with preBatchStaleState := s.target,
               target := setR (setR s.target k v) k (reflectGet s.target k),
               queuedUpdateNotice := true, microtasks := s.microtasks + 1 } := by
    simp [applyOps, applyOp, h1, h2]
  have hm1 : (applyOps s [.assign k v, .assign k (reflectGet s.target k)]).microtasks
      = 1 := by rw [hall]; simp [hm]
  refine ⟨?_, hm1, ?_, ?_⟩
  · simp [changeWorthySeq, changeWorthy, applyOp, h1, hchg]
    show reflectGet (setR s.target k v) k ≠ reflectGet s.target k
    rw [reflectGet_setR_self]
    exact fun hvv => hchg hvv.symm
  · rw [hall]
    show reflectGet (setR (setR s.target k v) k (reflectGet s.target k)) k
      = reflectGet s.target k
    rw [reflectGet_setR_self]
  · rw [runFlush_pureBeh _ hm1, hall]

/-- Container `{a: 1}` with one subscriber, for the C5 witness. -/
def svcC5 : Svc :=
  { target := [("a", .num 1)], frozenTarget := false, queuedUpdateNotice := false,
    preBatchStaleState := [], subscribers := [0], microtasks := 0 }

/-- Witness for C5: a := 2 then a := 1 in one turn still notifies once,
with fresh and stale agreeing on "a". -/
theorem C5_witness :
    reflectGet svcC5.target "a" ≠ .num 2 ∧
    (changeWorthySeq svcC5
       [.assign "a" (.num 2), .assign "a" (reflectGet svcC5.target "a")] = true ∧
     (applyOps svcC5
        [.assign "a" (.num 2), .assign "a" (reflectGet svcC5.target "a")]).microtasks
       = 1 ∧
     reflectGet (applyOps svcC5
        [.assign "a" (.num 2), .assign "a" (reflectGet svcC5.target "a")]).target "a"
       = reflectGet svcC5.target "a" ∧
     runFlush pureBeh (applyOps svcC5
        [.assign "a" (.num 2), .assign "a" (reflectGet svcC5.target "a")]) =
       ({ applyOps svcC5
            [.assign "a" (.num 2), .assign "a" (reflectGet svcC5.target "a")] with
            microtasks := 0, queuedUpdateNotice := false, preBatchStaleState := [] },
        svcC5.subscribers.map
          (fun i =>
            ⟨i, (applyOps svcC5
                  [.assign "a" (.num 2),
                   .assign "a" (reflectGet svcC5.target "a")]).target,
             svcC5.target⟩))) :=
  ⟨by decide, C5_revert_still_notifies svcC5 "a" (.num 2) rfl rfl rfl (by decide)⟩

/-- Mid-batch container state reached from `{a: 1}` by `assign a := 2`
(flag set, baseline captured, one flush pending), with one subscriber. -/
def svcC2 : Svc :=
  { target := [("a", .num 2)], frozenTarget := false, queuedUpdateNotice := true,
    preBatchStaleState := [("a", .num 1)], subscribers := [0], microtasks := 1 }

/-- Behaviour map in which the subscriber assigns b := 5 through the live
view while the flush is delivering. -/
def behC2 : Nat → SubBehavior := fun _ => .mutate "b" (.num 5)

/-- Claim C2 counterexample: at this concrete input the subscriber's
mutation during delivery is committed (b = 5 in the record afterwards),
yet the flush leaves no pending task and the next tick delivers nothing —
no second, independent notification cycle fires, contrary to the claim. -/
theorem C2_counterexample :
    (runFlush behC2 svcC2).2 = [⟨0, [("a", .num 2)], [("a", .num 1)]⟩] ∧
    reflectGet (runFlush behC2 svcC2).1.target "b" = .num 5 ∧
    (runFlush behC2 svcC2).1.microtasks = 0 ∧
    (runFlush behC2 svcC2).1.queuedUpdateNotice = false ∧
    runFlush behC2 (runFlush behC2 svcC2).1 = ((runFlush behC2 svcC2).1, []) := by
  decide

/-- Claim C2 as amended: the flush delivers to every subscriber and only
afterwards clears the flag and resets the baseline, in that order — but
because the flag is still set during delivery, a change-worthy mutation
performed by a subscriber while delivery is in progress is committed to
the tracked record without scheduling a new flush: no second notification
cycle fires, and after the flush the flag is clear, the baseline is empty,
and the mutation has been silently absorbed. -/
theorem C2_reentrant_mutation_swallowed (s : Svc) (i : Nat) (k : String)
    (v : Value) (beh : Nat → SubBehavior)
    (hm : s.microtasks = 1) (hq : s.queuedUpdateNotice = true)
    (hf : s.frozenTarget = false) (hsubs : s.subscribers = [i])
    (hbeh : beh i = .mutate k v) (hchg : reflectGet s.target k ≠ v) :
    runFlush beh s =
      ({ s with target := setR s.target k v, microtasks := 0,
                queuedUpdateNotice := false, preBatchStaleState := [] },
       [⟨i, s.target, s.preBatchStaleState⟩]) ∧
    runFlush beh (runFlush beh s).1 = ((runFlush beh s).1, []) := by
  have hstep := agentSet_changed_batching
      ({ target := s.target, frozenTarget := false, queuedUpdateNotice := true,
         preBatchStaleState := s.preBatchStaleState, subscribers := [i],
         microtasks := 0 } : Svc) k v hchg rfl rfl
  have hmain : runFlush beh s =
      ({ s with target := setR s.target k v, microtasks := 0,
                queuedUpdateNotice := false, preBatchStaleState := [] },
       [⟨i, s.target, s.preBatchStaleState⟩]) := by
    simp [runFlush, hm, hq, hf, hsubs, emitQueued, emitLoop, runSubscriber,
      hbeh, hstep]
  refine ⟨hmain, ?_⟩
  rw [hmain]
  exact runFlush_idle beh _ rfl

/-- Witness for the amended C2 at the concrete mid-batch state. -/
theorem C2_witness :
    reflectGet svcC2.target "b" ≠ .num 5 ∧
    (runFlush behC2 svcC2 =
       ({ svcC2 with target := setR svcC2.target "b" (.num 5), microtasks := 0,
                     queuedUpdateNotice := false, preBatchStaleState := [] },
        [⟨0, svcC2.target, svcC2.preBatchStaleState⟩]) ∧
     runFlush behC2 (runFlush behC2 svcC2).1 = ((runFlush behC2 svcC2).1, [])) :=
  ⟨by decide,
   C2_reentrant_mutation_swallowed svcC2 0 "b" (.num 5) behC2
     rfl rfl rfl rfl rfl (by decide)⟩

/-- Mid-batch container state with two subscribers, for C3: subscriber 0
will throw, subscriber 1 observes purely. -/
def svcC3 : Svc :=
  { target := [("a", .num 2)], frozenTarget := false, queuedUpdateNotice := true,
    preBatchStaleState := [("a", .num 1)], subscribers := [0, 1], microtasks := 1 }

/-- Behaviour map in which subscriber 0 throws and every other subscriber
returns normally. -/
def behC3 : Nat → SubBehavior := fun i => if i = 0 then .throws else .pure

/-- Claim C3 counterexample: at this concrete input subscriber 0 throws
during delivery; subscriber 1 — also registered — receives nothing (the
delivered list names only subscriber 0), the batch flag is left stuck set,
and a later change-worthy assignment (a := 7) commits but schedules no
flush, so the next tick delivers nothing: the fault is not isolated and
later mutations produce no notifications, contrary to the claim. -/
theorem C3_counterexample :
    (runFlush behC3 svcC3).2.map Note.sub = [0] ∧
    (runFlush behC3 svcC3).1.queuedUpdateNotice = true ∧
    (runFlush behC3 svcC3).1.preBatchStaleState = [("a", .num 1)] ∧
    reflectGet (agentSet (runFlush behC3 svcC3).1 "a" (.num 7)).1.target "a"
      = .num 7 ∧
    (agentSet (runFlush behC3 svcC3).1 "a" (.num 7)).1.microtasks = 0 ∧
    runFlush behC3 (agentSet (runFlush behC3 svcC3).1 "a" (.num 7)).1 =
      ((agentSet (runFlush behC3 svcC3).1 "a" (.num 7)).1, []) := by decide

/-- Claim C3 as amended: when a subscriber throws during a flush, delivery
aborts at the thrower — subscribers registered before it (and the thrower
itself) are invoked, subscribers after it receive nothing — and the `.then`
callback dies before its cleanup statements, so the batch flag stays set
and the baseline is not reset; consequently any later mutation finds the
flag set, schedules no flush, and no further notifications are ever
delivered. -/
theorem C3_throw_aborts_delivery (s : Svc) (pre post : List Nat) (t : Nat)
    (beh : Nat → SubBehavior)
    (hm : s.microtasks = 1) (hq : s.queuedUpdateNotice = true)
    (hsubs : s.subscribers = pre ++ t :: post)
    (hpre : ∀ i ∈ pre, beh i = .pure) (ht : beh t = .throws) :
    runFlush beh s =
      ({ s with microtasks := 0 },
       (pre ++ [t]).map (fun i => ⟨i, s.target, s.preBatchStaleState⟩)) ∧
    (runFlush beh s).1.queuedUpdateNotice = true ∧
    (runFlush beh s).1.preBatchStaleState = s.preBatchStaleState ∧
    (∀ k v, (agentSet (runFlush beh s).1 k v).1.microtasks = 0 ∧
      runFlush beh (agentSet (runFlush beh s).1 k v).1 =
        ((agentSet (runFlush beh s).1 k v).1, [])) := by
  have hmain : runFlush beh s =
      ({ s with microtasks := 0 },
       (pre ++ [t]).map (fun i => ⟨i, s.target, s.preBatchStaleState⟩)) := by
    simp [runFlush, hm, emitQueued, hsubs,
      emitLoop_pure_then_throw beh _ _ _ pre post t hpre ht]
  refine ⟨hmain, by rw [hmain]; exact hq, by rw [hmain], ?_⟩
  intro k v
  obtain ⟨t2, h2⟩ :=
    agentSet_batching_frame ({ s with microtasks := 0 } : Svc) k v hq
  constructor
  · simp [hmain, h2]
  · have hz : (agentSet (runFlush beh s).1 k v).1.microtasks = 0 := by
      simp [hmain, h2]
    exact runFlush_idle beh _ hz

/-- Witness for the amended C3 at the concrete two-subscriber state. -/
theorem C3_witness :
    (∀ i ∈ ([] : List Nat), behC3 i = .pure) ∧
    (runFlush behC3 svcC3 =
       ({ svcC3 with microtasks := 0 },
        ([] ++ [0]).map (fun i => ⟨i, svcC3.target, svcC3.preBatchStaleState⟩)) ∧
     (runFlush behC3 svcC3).1.queuedUpdateNotice = true ∧
     (runFlush behC3 svcC3).1.preBatchStaleState = svcC3.preBatchStaleState ∧
     (∀ k v, (agentSet (runFlush behC3 svcC3).1 k v).1.microtasks = 0 ∧
       runFlush behC3 (agentSet (runFlush behC3 svcC3).1 k v).1 =
         ((agentSet (runFlush behC3 svcC3).1 k v).1, []))) :=
  ⟨by simp,
   C3_throw_aborts_delivery svcC3 [] [1] 0 behC3 rfl rfl rfl
     (by simp) rfl⟩

/-!
Object-identity model for C8.  The value-level model above cannot express
that the delivered snapshots are *new objects* distinct from the live
`#target` and `#preBatchStaleState` references, so the snapshot
construction of `emitQueued` — `Object.freeze({ ...fresh })` and
`Object.freeze({ ...stale })` — is embedded once more over an explicit
object heap: objects are numbered references carrying their own-property
record and an extensibility/frozen flag.
-/

/-- A heap object: its own enumerable data properties and whether it has
been frozen. -/
structure JSObject where
  data : RecordMap
  frozen : Bool
deriving DecidableEq, Repr

/-- An object heap: allocated references with their objects, plus the next
fresh reference. -/
structure Heap where
  objs : List (Nat × JSObject)
  nextRef : Nat
deriving DecidableEq, Repr

/-- Reference lookup in a heap's allocation list. -/
def lookupObj : List (Nat × JSObject) → Nat → Option JSObject
  | [], _ => none
  | (r, o) :: rest, q => if r = q then some o else lookupObj rest q

/-- Dereference. -/
def heapGet (h : Heap) (r : Nat) : Option JSObject := lookupObj h.objs r

/-- Allocate a new object at a fresh reference. -/
def heapAlloc (h : Heap) (o : JSObject) : Heap × Nat :=
  ({ objs := (h.nextRef, o) :: h.objs, nextRef := h.nextRef + 1 }, h.nextRef)

/-- A top-level property write attempt on a heap object: on a frozen
object the write is rejected (strict-mode `TypeError`) or silently ignored
(sloppy mode) — either way the heap is unchanged; on a live object the
property is written. -/
def objWrite (h : Heap) (r : Nat) (k : String) (v : Value) : Heap :=
  match lookupObj h.objs r with
  | none => h
  | some o =>
    if o.frozen then h
    else { h with objs := h.objs.map (fun p =>
            if p.1 = r then (r, { o with data := setR o.data k v }) else p) }

/-- The snapshot construction of `emitQueued` (`src/src/main.js` lines
88-89) over the heap: `frozenFresh = Object.freeze({ ...fresh })` then
`frozenStale = Object.freeze({ ...stale })` — two fresh allocations, each
holding a shallow copy of the source object's data, both frozen.  Returns
the extended heap and the two snapshot references. -/
def freezeSnapshots (h : Heap) (freshRef staleRef : Nat) : Heap × Nat × Nat :=
  let freshData := ((lookupObj h.objs freshRef).map JSObject.data).getD []
  let a1 := heapAlloc h { data := freshData, frozen := true }
  let staleData := ((lookupObj a1.1.objs staleRef).map JSObject.data).getD []
  let a2 := heapAlloc a1.1 { data := staleData, frozen := true }
  (a2.1, a1.2, a2.2)

/-- Looking a reference up past an entry with a different reference. -/
theorem lookupObj_cons_ne (r : Nat) (o : JSObject) (l : List (Nat × JSObject))
    (q : Nat) (h : r ≠ q) :
    lookupObj ((r, o) :: l) q = lookupObj l q := by
  simp [lookupObj, h]

/-- Claim C8: the delivered (fresh, stale) pair consists of two newly
allocated, top-level-frozen shallow copies: the two snapshot references
are distinct from each other and from the live record and baseline
references, each snapshot object is frozen and holds a copy of the
corresponding source data, the source objects themselves are untouched,
and any subsequent top-level property write on either snapshot is
rejected/ignored, leaving the whole heap — hence the container's record,
baseline, and everything a future notification could read — unchanged. -/
theorem C8_frozen_snapshots (h : Heap) (freshRef staleRef : Nat)
    (hfr : freshRef < h.nextRef) (hst : staleRef < h.nextRef) :
    (freezeSnapshots h freshRef staleRef).2.1 ≠ freshRef ∧
    (freezeSnapshots h freshRef staleRef).2.1 ≠ staleRef ∧
    (freezeSnapshots h freshRef staleRef).2.2 ≠ freshRef ∧
    (freezeSnapshots h freshRef staleRef).2.2 ≠ staleRef ∧
    (freezeSnapshots h freshRef staleRef).2.1 ≠
      (freezeSnapshots h freshRef staleRef).2.2 ∧
    heapGet (freezeSnapshots h freshRef staleRef).1
        (freezeSnapshots h freshRef staleRef).2.1 =
      some ⟨((heapGet h freshRef).map JSObject.data).getD [], true⟩ ∧
    heapGet (freezeSnapshots h freshRef staleRef).1
        (freezeSnapshots h freshRef staleRef).2.2 =
      some ⟨((heapGet h staleRef).map JSObject.data).getD [], true⟩ ∧
    heapGet (freezeSnapshots h freshRef staleRef).1 freshRef = heapGet h freshRef ∧
    heapGet (freezeSnapshots h freshRef staleRef).1 staleRef = heapGet h staleRef ∧
    (∀ k v,
      objWrite (freezeSnapshots h freshRef staleRef).1
          (freezeSnapshots h freshRef staleRef).2.1 k v =
        (freezeSnapshots h freshRef staleRef).1 ∧
      objWrite (freezeSnapshots h freshRef staleRef).1
          (freezeSnapshots h freshRef staleRef).2.2 k v =
        (freezeSnapshots h freshRef staleRef).1) := by
  have e1 : (freezeSnapshots h freshRef staleRef).2.1 = h.nextRef := rfl
  have e2 : (freezeSnapshots h freshRef staleRef).2.2 = h.nextRef + 1 := rfl
  have eheap : (freezeSnapshots h freshRef staleRef).1 =
      { objs := (h.nextRef + 1,
                  ⟨((lookupObj ((h.nextRef,
                      (⟨((lookupObj h.objs freshRef).map JSObject.data).getD [],
                        true⟩ : JSObject)) :: h.objs) staleRef).map
                      JSObject.data).getD [], true⟩) ::
                (h.nextRef,
                  ⟨((lookupObj h.objs freshRef).map JSObject.data).getD [],
                    true⟩) :: h.objs,
        nextRef := h.nextRef + 2 } := rfl
  have hns : h.nextRef ≠ staleRef := by omega
  have hnf : h.nextRef ≠ freshRef := by omega
  have hn1s : h.nextRef + 1 ≠ staleRef := by omega
  have hn1f : h.nextRef + 1 ≠ freshRef := by omega
  have hn1n : h.nextRef + 1 ≠ h.nextRef := by omega
  refine ⟨by rw [e1]; omega, by rw [e1]; omega, by rw [e2]; omega,
    by rw [e2]; omega, by rw [e1, e2]; omega, ?_, ?_, ?_, ?_, ?_⟩
  · rw [eheap, e1]
    simp [heapGet, lookupObj, hns, hn1n]
  · rw [eheap, e2]
    simp [heapGet, lookupObj, hns]
  · rw [eheap]
    simp [heapGet, lookupObj, hnf, hn1f]
  · rw [eheap]
    simp [heapGet, lookupObj, hns, hn1s]
  · intro k v
    constructor
    · rw [eheap, e1]
      simp [objWrite, lookupObj, hns, hn1n]
    · rw [eheap, e2]
      simp [objWrite, lookupObj]

/-- Concrete heap for the C8 witness: reference 0 is the live record
`{a: 2}`, reference 1 the baseline `{a: 1}`. -/
def heapC8 : Heap :=
  { objs := [(0, ⟨[("a", .num 2)], false⟩), (1, ⟨[("a", .num 1)], false⟩)],
    nextRef := 2 }

/-- Witness for C8 at the concrete two-object heap. -/
theorem C8_witness :
    (0 : Nat) < heapC8.nextRef ∧ (1 : Nat) < heapC8.nextRef ∧
    ((freezeSnapshots heapC8 0 1).2.1 ≠ 0 ∧
     (freezeSnapshots heapC8 0 1).2.1 ≠ 1 ∧
     (freezeSnapshots heapC8 0 1).2.2 ≠ 0 ∧
     (freezeSnapshots heapC8 0 1).2.2 ≠ 1 ∧
     (freezeSnapshots heapC8 0 1).2.1 ≠ (freezeSnapshots heapC8 0 1).2.2 ∧
     heapGet (freezeSnapshots heapC8 0 1).1 (freezeSnapshots heapC8 0 1).2.1 =
       some ⟨((heapGet heapC8 0).map JSObject.data).getD [], true⟩ ∧
     heapGet (freezeSnapshots heapC8 0 1).1 (freezeSnapshots heapC8 0 1).2.2 =
       some ⟨((heapGet heapC8 1).map JSObject.data).getD [], true⟩ ∧
     heapGet (freezeSnapshots heapC8 0 1).1 0 = heapGet heapC8 0 ∧
     heapGet (freezeSnapshots heapC8 0 1).1 1 = heapGet heapC8 1 ∧
     (∀ k v,
       objWrite (freezeSnapshots heapC8 0 1).1 (freezeSnapshots heapC8 0 1).2.1 k v =
         (freezeSnapshots heapC8 0 1).1 ∧
       objWrite (freezeSnapshots heapC8 0 1).1 (freezeSnapshots heapC8 0 1).2.2 k v =
         (freezeSnapshots heapC8 0 1).1)) :=
  ⟨by decide, by decide, C8_frozen_snapshots heapC8 0 1 (by decide) (by decide)⟩

end ObservableSpec
